import Mathlib

/-!
# Verification of dwmaya core algorithms

Shallow embedding of the two algorithmic cores of the `dwmaya` utility
library:

* the UDIM texture-path resolver `get_udim_filepaths`
  (`src/dwmaya/shading.py`), and
* the sequencer free-track finder `find_track_with_free_range` together
  with its helper `tracks_to_lists` (`src/dwmaya/__track.py`).

The filesystem `glob.glob` call is abstracted as an oracle
`globFn : String → List String` passed explicitly, and Maya scene queries
(`cmds.ls`, `cmds.getAttr`, `cmds.shotTrack`) are abstracted as a `Scene`
record supplying the shot list and track count.  Python exceptions
(`ValueError` from `str.index`, `IndexError` from list indexing) are
modelled with `Except String`.  Frame times (Python floats used only in
comparisons, never in arithmetic) are modelled as rationals.
-/

namespace Dwmaya

/-! ## String helpers modelling the Python primitives used by the code -/

/-- Python `str.lower()`, restricted to the ASCII case mapping.  All
pattern constants in the source are ASCII, and a non-ASCII character can
never lower to an ASCII one, so this agrees with Python on every
comparison the code performs against its ASCII patterns. -/
def pyLower (s : String) : String := String.mk (s.data.map Char.toLower)

/-- Index of the first occurrence of `needle` in the character list,
starting the count at `i`.  Backs the model of Python `str.index` /
`str.find` / the `in` operator. -/
def firstOccAux (needle : List Char) : List Char → Nat → Option Nat
  | [], i => if needle.isPrefixOf ([] : List Char) then some i else none
  | c :: rest, i =>
      if needle.isPrefixOf (c :: rest) then some i
      else firstOccAux needle rest (i + 1)

/-- Python `hay.find(needle)` as an `Option`: `some i` is the first
occurrence, `none` means absent (where `str.index` would raise
`ValueError`). -/
def strFind (hay needle : String) : Option Nat :=
  firstOccAux needle.data hay.data 0

/-- Last index of character `c` in the list (Python `str.rfind` for a
single character), as an accumulator scan. -/
def rfindCharAux (c : Char) : List Char → Nat → Option Nat → Option Nat
  | [], _, best => best
  | x :: rest, i, best =>
      rfindCharAux c rest (i + 1) (if x = c then some i else best)

/-- Python `os.path.splitext(p)[-1]` on a POSIX host: the extension
starts at the last `'.'`, provided it comes after the last `'/'` and at
least one character of the basename strictly before it is not a dot
(leading dots of the basename never start an extension).  Mirrors
`genericpath._splitext` with `sep = '/'` and no `altsep`. -/
def splitextExt (p : String) : String :=
  let cs := p.data
  let sepIdx : Int := ((rfindCharAux '/' cs 0 none).map Int.ofNat).getD (-1)
  let dotIdx? := rfindCharAux '.' cs 0 none
  match dotIdx? with
  | none => ""
  | some d =>
      if sepIdx < (d : Int) then
        let nameStart := (sepIdx + 1).toNat
        if ((cs.drop nameStart).take (d - nameStart)).any (fun c => c ≠ '.') then
          String.mk (cs.drop d)
        else ""
      else ""

/-! ## The three UDIM pattern tests, as the source performs them -/

/-- `UDIM_EXTENSION_PATTERN = r'\.1001\..{2,4}$'` -/
def UDIM_EXTENSION_PATTERN : String := ".1001."

/-- `UDIM_UV_PATTERN = r'_u<u>_v<v>'` (a literal string, angle brackets
included, used with the `in` operator and `str.index`). -/
def UDIM_UV_PATTERN : String := "_u<u>_v<v>"

/-- The source's branch-1 test
`re.compile(r'\.1001\..{2,4}$').match(path)`.  Python `re.match` anchors
at position 0, so despite the `$` the pattern only matches paths that
BEGIN with `".1001."` followed by 2–4 non-newline characters, optionally
followed by one final newline (Python `$` also matches just before a
trailing newline). -/
def matchUdimExtension (path : String) : Bool :=
  let cs := path.data
  UDIM_EXTENSION_PATTERN.data.isPrefixOf cs &&
    (let rest := cs.drop 6
     let core := if rest.getLast? = some '\n' then rest.dropLast else rest
     decide (2 ≤ core.length) && decide (core.length ≤ 4) &&
       core.all (fun c => c ≠ '\n'))

/-- Does a `_u<digit>_v<digit>` token start at the head of the list?
Python `\d` is modelled as the ASCII decimal digits; the source's
patterns and every input considered here are ASCII. -/
def udimUvTokenAt : List Char → Bool
  | '_' :: 'u' :: d1 :: '_' :: 'v' :: d2 :: _ => d1.isDigit && d2.isDigit
  | _ => false

/-- The source's branch-3 test
`re.compile('.*' + r'_u\d_v\d' + '.*').match(path)`: a `_u<digit>_v<digit>`
token occurs, and no newline precedes it (the leading `.*` cannot cross a
newline and `re.match` is anchored at position 0). -/
def matchUvRegex : List Char → Bool
  | [] => false
  | c :: rest =>
      udimUvTokenAt (c :: rest) || (decide (c ≠ '\n') && matchUvRegex rest)

/-- Index of the first `_u<digit>_v<digit>` token, counting from `i`.
Backs `len(re.split(r'_u\d_v\d', path)[0])`: the prefix before the first
match of the split pattern (an unanchored search). -/
def findUvToken : List Char → Nat → Option Nat
  | [], _ => none
  | c :: rest, i =>
      if udimUvTokenAt (c :: rest) then some i else findUvToken rest (i + 1)

/-! ## The UDIM resolver -/

/-- The `path_start_length` computation of `get_udim_filepaths`
(src/dwmaya/shading.py, lines 174–184): `.ok none` models the variable
staying `None`, `.ok (some n)` a computed offset, `.error` the
`ValueError` that `str.index` raises when its argument is absent.  In
branch 1 the needle `'1001' + extension` keeps the original case of
`extension` while the haystack is `path.lower()`; in branch 2 the `in`
test and the subsequent `.index` are the same substring search, collapsed
into one `strFind`. -/
def path_start_length (path : String) : Except String (Option Nat) :=
  let extension := splitextExt path
  if matchUdimExtension path then
    match strFind (pyLower path) ("1001" ++ extension) with
    | some i => .ok (some i)
    | none => .error "ValueError"
  else
    match strFind (pyLower path) UDIM_UV_PATTERN with
    | some i => .ok (some i)
    | none =>
        if matchUvRegex path.data then
          .ok (some ((findUvToken path.data 0).getD path.data.length))
        else .ok none

/-- `get_udim_filepaths(path)` (src/dwmaya/shading.py, lines 169–187),
with `glob.glob` abstracted as the oracle `globFn`.  When the computed
offset is truthy (present and nonzero) the glob pattern
`path[:offset] + '*' + extension` is expanded and backslashes in each
result are replaced by forward slashes; a falsy offset (absent, or the
quirky value 0) yields the empty list. -/
def get_udim_filepaths (globFn : String → List String) (path : String) :
    Except String (List String) :=
  let extension := splitextExt path
  match path_start_length path with
  | .error e => .error e
  | .ok none => .ok []
  | .ok (some n) =>
      if n = 0 then .ok []
      else
        .ok ((globFn (String.mk (path.data.take n) ++ "*" ++ extension)).map
          (fun p => String.mk (p.data.map (fun c => if c = '\\' then '/' else c))))

/-! ## Sequencer track model (src/dwmaya/__track.py) -/

/-- A Maya shot node: the attributes the track code reads.  `track` is the
1-based track index (a Python int), the two frame attributes are Python
floats used only in comparisons, modelled as rationals. -/
structure Shot where
  name : String
  track : Int
  sequenceStartFrame : ℚ
  sequenceEndFrame : ℚ
  deriving DecidableEq

/-- The Maya scene state the track code queries: `shots` is
`cmds.ls(type="shot")` in listing order (each element carrying the
attributes `getAttr` would return), `numTracks` is
`cmds.shotTrack(query=True, numTracks=True)`. -/
structure Scene where
  shots : List Shot
  numTracks : Nat
  deriving DecidableEq

/-- The fill loop of `tracks_to_lists`.  Since `[[]] * n` creates `n`
references to ONE list, every `tracks[track].append(shot)` whose index is
valid appends to that single shared list, whatever the index; an index
outside Python's valid range `-n ≤ i < n` (for `i = shot.track - 1`,
negative indices count from the end — still the same shared list) raises
`IndexError`.  `acc` is the shared list's contents so far. -/
def fillShared (n : Int) : List Shot → List Shot → Except String (List Shot)
  | [], acc => .ok acc
  | s :: rest, acc =>
      if -n ≤ s.track - 1 ∧ s.track - 1 < n then
        fillShared n rest (acc ++ [s])
      else .error "IndexError"

/-- `tracks_to_lists()` (src/dwmaya/__track.py, lines 20–31).  The
returned outer list is `[[]] * numTracks`, so after the fill loop every
element is the one shared list: `replicate numTracks shared`. -/
def tracks_to_lists (sc : Scene) : Except String (List (List Shot)) :=
  match fillShared (sc.numTracks : Int) sc.shots [] with
  | .error e => .error e
  | .ok shared => .ok (List.replicate sc.numTracks shared)

/-- The overlap test of `find_track_with_free_range` (lines 47–49):
`start_frame <= shot_start_frame <= end_frame or
start_frame <= shot_end_frame <= end_frame` (Python chained comparisons
are conjunctions). -/
def overlaps (start_frame end_frame shot_start_frame shot_end_frame : ℚ) : Bool :=
  decide ((start_frame ≤ shot_start_frame ∧ shot_start_frame ≤ end_frame) ∨
    (start_frame ≤ shot_end_frame ∧ shot_end_frame ≤ end_frame))

/-- The `for i, track in enumerate(...)` loop with the inner
`for shot in track: ... break / else: return i + 1`: the inner loop
breaks on the first overlapping shot (that is, when `track.any` of the
overlap test holds), otherwise the `else` clause returns `i + 1`; falling
off the outer loop returns `None`. -/
def findFreeAux (start_frame end_frame : ℚ) : List (List Shot) → Nat → Option Nat
  | [], _ => none
  | track :: rest, i =>
      if track.any (fun sh =>
          overlaps start_frame end_frame sh.sequenceStartFrame sh.sequenceEndFrame) then
        findFreeAux start_frame end_frame rest (i + 1)
      else some (i + 1)

/-- `find_track_with_free_range(start_frame, end_frame)`
(src/dwmaya/__track.py, lines 34–56), over the scene state `sc`. -/
def find_track_with_free_range (sc : Scene) (start_frame end_frame : ℚ) :
    Except String (Option Nat) :=
  match tracks_to_lists sc with
  | .error e => .error e
  | .ok tracks => .ok (findFreeAux start_frame end_frame tracks 0)

/-! ## Helper lemmas -/

/-- When every shot's Python index is valid, the fill loop appends every
shot, in order, to the shared list. -/
theorem fillShared_ok (n : Int) (l : List Shot)
    (h : ∀ s ∈ l, -n ≤ s.track - 1 ∧ s.track - 1 < n) :
    ∀ acc, fillShared n l acc = .ok (acc ++ l) := by
  induction l with
  | nil => intro acc; simp [fillShared]
  | cons s rest ih =>
      intro acc
      have hs := h s (by simp)
      rw [fillShared, if_pos hs, ih (fun x hx => h x (by simp [hx]))]
      simp

/-- With valid shot indices, `tracks_to_lists` succeeds and every bucket
is the full shot list. -/
theorem tracks_to_lists_ok (sc : Scene)
    (hv : ∀ s ∈ sc.shots, 1 ≤ s.track ∧ s.track ≤ (sc.numTracks : Int)) :
    tracks_to_lists sc = .ok (List.replicate sc.numTracks sc.shots) := by
  have hfill : fillShared (sc.numTracks : Int) sc.shots [] = .ok sc.shots := by
    rw [fillShared_ok]
    · simp
    · intro s hs
      have := hv s hs
      omega
  simp [tracks_to_lists, hfill]

/-- If the shared list has an overlapping shot, every bucket of the
replicated track list has one, so the scan returns `none`. -/
theorem findFreeAux_replicate_none (s e : ℚ) (l : List Shot)
    (h : l.any (fun sh => overlaps s e sh.sequenceStartFrame sh.sequenceEndFrame) = true) :
    ∀ n i, findFreeAux s e (List.replicate n l) i = none := by
  intro n
  induction n with
  | zero => intro i; simp [findFreeAux]
  | succ k ih =>
      intro i
      rw [List.replicate_succ, findFreeAux, if_pos h]
      exact ih (i + 1)

/-! ## Concrete scenes and glob oracles used as inputs -/

/-- Two tracks; one shot, on track 1, spanning frames 5–8.  Track 2
holds no shot. -/
def sceneC1 : Scene := ⟨[⟨"shot1", 1, 5, 8⟩], 2⟩

/-- Two tracks; one shot, on track 1, spanning frames 4–6.  Track 2 is
empty. -/
def sceneC5 : Scene := ⟨[⟨"s1", 1, 4, 6⟩], 2⟩

/-- Two tracks, one shot on each. -/
def sceneC9 : Scene := ⟨[⟨"a", 1, 0, 1⟩, ⟨"b", 2, 2, 3⟩], 2⟩

/-- One track holding one shot. -/
def sceneC10 : Scene := ⟨[⟨"c", 1, 0, 10⟩], 1⟩

/-- A directory state where both `tex.1001.exr` and `tex.1002.exr` match
the glob pattern the spec expects to be built. -/
def c2Glob : String → List String := fun _ => ["tex.1001.exr", "tex.1002.exr"]

/-! ## Claim theorems -/

/-- C1: the claim says `find_track_with_free_range` returns the 1-based
index of the first track none of whose shots overlaps the query range.
It does not: in `sceneC1` track 2 holds no shot at all, yet the query
[5, 6] (which the track-1 shot overlaps) returns `none` instead of `2`,
because `tracks_to_lists` builds its outer list as `[[]] * n`, so every
bucket aliases one shared list holding every shot. -/
theorem find_track_ignores_empty_track :
    find_track_with_free_range sceneC1 5 6 = .ok none ∧
    sceneC1.numTracks = 2 ∧ (∀ s ∈ sceneC1.shots, s.track = 1) :=
  ⟨rfl, rfl, by decide⟩

/-- C2: the claim says every path ending in `1001.<ext>` takes the first
branch and returns the matching files.  It does not: `re.match` anchors
`UDIM_EXTENSION_PATTERN` at position 0, so `"tex.1001.exr"` fails the
first branch (and the other two), and the function returns `[]` for every
directory state — in particular not the two matching files the spec
expects. -/
theorem udim_extension_match_anchored :
    (∀ g : String → List String, get_udim_filepaths g "tex.1001.exr" = .ok []) ∧
    get_udim_filepaths c2Glob "tex.1001.exr" ≠ .ok ["tex.1001.exr", "tex.1002.exr"] := by
  refine ⟨fun _ => rfl, fun hc => ?_⟩
  rw [show get_udim_filepaths c2Glob "tex.1001.exr" = .ok [] from rfl] at hc
  simp at hc

/-- C3: the claim says `get_udim_filepaths` terminates without raising
for every path string.  It does not: on `".1001.EXR"` the first branch
matches, but `path.lower().index('1001' + extension)` searches for the
needle `"1001.EXR"` (extension not lowercased) inside the lowercased
path `".1001.exr"`, so `str.index` raises `ValueError`. -/
theorem udim_uppercase_extension_value_error :
    ∀ g : String → List String, get_udim_filepaths g ".1001.EXR" = .error "ValueError" :=
  fun _ => rfl

/-- C4: the overlap test holds iff the shot's start or end frame lies
within [start, end] inclusive; a shot whose start equals the range's end
(or whose end equals the range's start) overlaps, while a shot strictly
containing the whole range with both endpoints outside does not. -/
theorem overlap_test_endpoints :
    (∀ s e ss se : ℚ, overlaps s e ss se = true ↔
      ((s ≤ ss ∧ ss ≤ e) ∨ (s ≤ se ∧ se ≤ e))) ∧
    (∀ s e se : ℚ, s ≤ e → overlaps s e e se = true) ∧
    (∀ s e ss : ℚ, s ≤ e → overlaps s e ss s = true) ∧
    (∀ s e ss se : ℚ, ss < s → e < se → overlaps s e ss se = false) := by
  refine ⟨fun s e ss se => by simp [overlaps], ?_, ?_, ?_⟩
  · intro s e se h
    simp only [overlaps, decide_eq_true_eq]
    exact Or.inl ⟨h, le_refl e⟩
  · intro s e ss h
    simp only [overlaps, decide_eq_true_eq]
    exact Or.inr ⟨le_refl s, h⟩
  · intro s e ss se h1 h2
    simp only [overlaps, decide_eq_false_iff_not]
    rintro (⟨ha, hb⟩ | ⟨ha, hb⟩) <;> linarith

/-- Witness for C4 at concrete frames: a shot starting exactly at the
range's end overlaps, a shot ending exactly at the range's start
overlaps, and a shot strictly containing the range does not. -/
theorem overlap_test_endpoints_witness :
    (overlaps 5 6 6 100 = true ↔
      (((5 : ℚ) ≤ 6 ∧ (6 : ℚ) ≤ 6) ∨ ((5 : ℚ) ≤ 100 ∧ (100 : ℚ) ≤ 6))) ∧
    overlaps 5 6 6 100 = true ∧ overlaps 5 6 (-3) 5 = true ∧
    overlaps 5 6 4 7 = false :=
  ⟨overlap_test_endpoints.1 5 6 6 100,
   overlap_test_endpoints.2.1 5 6 100 (by decide),
   overlap_test_endpoints.2.2.1 5 6 (-3) (by decide),
   overlap_test_endpoints.2.2.2 5 6 4 7 (by decide) (by decide)⟩

/-- C5: the claim says a track holding zero shots is returned regardless
of other tracks' overlaps.  It is not: in `sceneC5` track 2 is empty,
yet the query [5, 9] (overlapped by the track-1 shot, whose end frame 6
falls inside) returns `none`, because the `[[]] * n` aliasing in
`tracks_to_lists` puts every shot into every bucket. -/
theorem empty_track_not_returned :
    find_track_with_free_range sceneC5 5 9 = .ok none ∧
    sceneC5.numTracks = 2 ∧ (∀ s ∈ sceneC5.shots, s.track ≠ 2) :=
  ⟨rfl, rfl, by decide⟩

/-- C6: when none of the three UDIM conventions is found — the anchored
`1001.<ext>` regex fails, the literal `_u<u>_v<v>` token is absent from
the lowercased path, and the `_u<digit>_v<digit>` regex fails —
`get_udim_filepaths` returns the empty list, whatever files the glob
oracle would report. -/
theorem no_udim_convention_returns_empty (path : String)
    (globFn : String → List String)
    (h1 : matchUdimExtension path = false)
    (h2 : strFind (pyLower path) UDIM_UV_PATTERN = none)
    (h3 : matchUvRegex path.data = false) :
    get_udim_filepaths globFn path = .ok [] := by
  simp [get_udim_filepaths, path_start_length, h1, h2, h3]

/-- Witness for C6: `"plain.exr"` matches no convention and yields `[]`
even against a directory state holding a file. -/
theorem no_udim_convention_returns_empty_witness :
    get_udim_filepaths (fun _ => ["on_disk_file.exr"]) "plain.exr" = .ok [] :=
  no_udim_convention_returns_empty "plain.exr" (fun _ => ["on_disk_file.exr"])
    rfl rfl rfl

/-- C7: a computed offset of exactly 0 is falsy in Python, so the
`if path_start_length:` guard skips the glob entirely and the empty list
is returned for every directory state. -/
theorem zero_offset_returns_empty (path : String)
    (globFn : String → List String)
    (h : path_start_length path = .ok (some 0)) :
    get_udim_filepaths globFn path = .ok [] := by
  simp [get_udim_filepaths, h]

/-- Witness for C7: `"_u1_v1.exr"` puts the UDIM token at offset 0 and
yields `[]` even against a directory state holding matching tiles. -/
theorem zero_offset_returns_empty_witness :
    get_udim_filepaths (fun _ => ["_u1_v1.exr", "_u2_v2.exr"]) "_u1_v1.exr" = .ok [] :=
  zero_offset_returns_empty "_u1_v1.exr" (fun _ => ["_u1_v1.exr", "_u2_v2.exr"]) rfl

/-- C8: `get_udim_filepaths` is deterministic in the directory state:
two glob oracles returning the same results for every pattern produce
the same list of paths. -/
theorem udim_filepaths_deterministic (path : String)
    (g1 g2 : String → List String) (h : ∀ p, g1 p = g2 p) :
    get_udim_filepaths g1 path = get_udim_filepaths g2 path := by
  rw [funext h]

/-- Witness for C8: two syntactically different oracles with the same
results give the same expansion of `".1001.exr"`. -/
theorem udim_filepaths_deterministic_witness :
    get_udim_filepaths (fun _ => ["t.1001.exr"] ++ []) ".1001.exr" =
      get_udim_filepaths (fun _ => ["t.1001.exr"]) ".1001.exr" :=
  udim_filepaths_deterministic ".1001.exr" _ _ (fun _ => rfl)

/-- C9: the outer list of `tracks_to_lists` is `[[]] * numTracks`, `n`
references to one shared list, so with valid 1-based track indices the
result is `replicate numTracks` of the full shot list and every bucket
contains every shot of the scene. -/
theorem tracks_to_lists_shared_buckets (sc : Scene)
    (hn : 1 ≤ sc.numTracks)
    (hv : ∀ s ∈ sc.shots, 1 ≤ s.track ∧ s.track ≤ (sc.numTracks : Int)) :
    tracks_to_lists sc = .ok (List.replicate sc.numTracks sc.shots) ∧
    ∀ bucket ∈ List.replicate sc.numTracks sc.shots,
      ∀ s ∈ sc.shots, s ∈ bucket := by
  refine ⟨tracks_to_lists_ok sc hv, fun bucket hb s hs => ?_⟩
  rw [List.eq_of_mem_replicate hb]
  exact hs

/-- Witness for C9: with a shot on each of two tracks, both buckets hold
both shots. -/
theorem tracks_to_lists_shared_buckets_witness :
    tracks_to_lists sceneC9 = .ok (List.replicate sceneC9.numTracks sceneC9.shots) ∧
    ∀ bucket ∈ List.replicate sceneC9.numTracks sceneC9.shots,
      ∀ s ∈ sceneC9.shots, s ∈ bucket :=
  tracks_to_lists_shared_buckets sceneC9 (by decide) (by decide)

/-- C10: for a scene with at least one track and valid shot track
indices, `find_track_with_free_range` returns `none` or `1` — never a
larger index — because every bucket of `tracks_to_lists` holds the same
shots, so track 1 is free exactly when every track is. -/
theorem find_track_none_or_one (sc : Scene) (s e : ℚ)
    (hn : 1 ≤ sc.numTracks)
    (hv : ∀ sh ∈ sc.shots, 1 ≤ sh.track ∧ sh.track ≤ (sc.numTracks : Int)) :
    find_track_with_free_range sc s e = .ok none ∨
      find_track_with_free_range sc s e = .ok (some 1) := by
  have ht := tracks_to_lists_ok sc hv
  cases h : sc.shots.any
      (fun sh => overlaps s e sh.sequenceStartFrame sh.sequenceEndFrame) with
  | true =>
      left
      simp only [find_track_with_free_range, ht]
      rw [findFreeAux_replicate_none s e sc.shots h]
  | false =>
      right
      obtain ⟨k, hk⟩ : ∃ k, sc.numTracks = k + 1 := ⟨sc.numTracks - 1, by omega⟩
      simp [find_track_with_free_range, ht, hk, List.replicate_succ,
        findFreeAux, h]

/-- Witness for C10: a one-track scene with a non-overlapping query
returns `none` or `1`. -/
theorem find_track_none_or_one_witness :
    find_track_with_free_range sceneC10 20 30 = .ok none ∨
      find_track_with_free_range sceneC10 20 30 = .ok (some 1) :=
  find_track_none_or_one sceneC10 20 30 (by decide) (by decide)

end Dwmaya
